import Mathlib

/-!
Verification development for the waas-js-sdk client library.

The development shallowly embeds the two core components of the SDK:

* the error-classification layer: the axios response interceptor installed in
  the `WaasApi` constructor (src/waas-api.ts, lines 142-164), together with the
  constructor's credential and option validation (lines 79-102);
* the asynchronous-operation lifecycle manager: the `Request` handle with its
  `get()` and `wait()` operations. Its source file (request.ts) is not among
  the provided source files (only its caller, EthContractWallet.sendAsync, and
  the interfaces file are), so those definitions are modelled from the spec and
  are marked as such in their doc comments.

JavaScript values that the validation code discriminates on are embedded as an
inductive `JSValue`; parsed JSON error bodies keep only the fields the SDK
reads (`message`, `activityId`), each as an `Option` to model an absent field.
-/

namespace WaasSdk

/-- The parsed JSON body of a failed HTTP response, restricted to the two
fields the SDK reads: `message` and `activityId`. `none` models an absent
field (JavaScript `undefined`). -/
structure ErrorBody where
  message : Option String
  activityId : Option String
deriving Repr, DecidableEq

/-- A transport failure as the interceptor's error handler receives it
(axios `AxiosError`): `response` is `some (status, data)` when the exchange
produced an HTTP response, and `none` for a connectionless failure
(connection refused, timeout). -/
structure AxiosErrorModel where
  response : Option (Nat × ErrorBody)
deriving Repr, DecidableEq

/-- Modelled from the spec: errors.ts (the typed error classes) is not among
the provided source files. Each error class extends the JavaScript `Error`
class, so constructing one from an absent `message` field yields the empty
string ("body's `message` field, or empty string if absent"). -/
def errorMessage (m : Option String) : String := m.getD ""

/-- The data carried by a `GeneralError`. -/
structure GeneralError where
  message : String
  status : Nat
  activityId : Option String
deriving Repr, DecidableEq

/-- Modelled from the spec: errors.ts is not among the provided source files.
`new GeneralError(e.response.data, e.response.status)` receives the full body
and the numeric status; per the spec's scenario (HTTP 500 with body
`{message: "boom", activityId: "abc-1"}` yields message `"boom"`, activityId
`"abc-1"`) and the Wallet test (status 418, body `{message}` yields
`e.message === message`, `e.status === 418`), the body's `message` field
surfaces as the error message and the body's `activityId` is kept. -/
def GeneralError.ofData (data : ErrorBody) (status : Nat) : GeneralError :=
  { message := errorMessage data.message
    status := status
    activityId := data.activityId }

/-- The closed taxonomy of typed errors thrown by the interceptor
(src/waas-api.ts lines 150-159). -/
inductive TypedError
  | authenticationError (message : String)
  | conflictError (message : String)
  | notFoundError (message : String)
  | generalError (e : GeneralError)
deriving Repr, DecidableEq

/-- What the interceptor's error handler throws: either one of the typed
errors, or — when the failure carries no response — the original raw
`AxiosError` rethrown unchanged (`throw e` at src/waas-api.ts line 163). -/
inductive InterceptResult
  | classified (e : TypedError)
  | raw (e : AxiosErrorModel)
deriving Repr, DecidableEq

/-- `true` exactly when the interceptor produced one of the typed errors. -/
def InterceptResult.isTyped : InterceptResult → Bool
  | .classified _ => true
  | .raw _ => false

/-- Shallow embedding of the response interceptor's error handler
(src/waas-api.ts lines 146-164): when the failure carries a response, switch
on its status — 401 ↦ AuthenticationError, 409 ↦ ConflictError,
404 ↦ NotFoundError, default ↦ GeneralError of the full body and status;
when it carries no response, rethrow the raw error unchanged. -/
def interceptError (e : AxiosErrorModel) : InterceptResult :=
  match e.response with
  | some (status, data) =>
    if status = 401 then .classified (.authenticationError (errorMessage data.message))
    else if status = 409 then .classified (.conflictError (errorMessage data.message))
    else if status = 404 then .classified (.notFoundError (errorMessage data.message))
    else .classified (.generalError (GeneralError.ofData data status))
  | none => .raw e

/-- A successful HTTP response as the interceptor's success handler receives
it (only the fields relevant here). -/
structure AxiosResponse where
  status : Nat
  body : String
deriving Repr, DecidableEq

/-- Shallow embedding of the response interceptor's success handler
(src/waas-api.ts lines 142-145): it logs the response for debugging and
returns it unchanged. -/
def interceptResponse (r : AxiosResponse) : AxiosResponse := r

/-- A JavaScript value, restricted to the kinds the constructor's validation
discriminates between: strings, numbers, booleans, and `undefined` (which also
models an absent option). Other kinds (functions, symbols) behave like
non-string, non-number, non-boolean values for these checks and are grouped
under `other`. -/
inductive JSValue
  | str (s : String)
  | num (n : Int)
  | boolean (b : Bool)
  | undef
  | other
deriving Repr, DecidableEq

/-- JavaScript falsiness (`!v`) for the embedded value kinds: the empty
string, zero, `false`, and `undefined` are falsy. -/
def jsFalsy : JSValue → Bool
  | .str s => s = ""
  | .num n => n = 0
  | .boolean b => !b
  | .undef => true
  | .other => false

/-- typeforce `"String"`: the value is a string. -/
def isJSString : JSValue → Bool
  | .str _ => true
  | _ => false

/-- typeforce `"?String"`: the value is `undefined` or a string. -/
def isOptString : JSValue → Bool
  | .undef => true
  | .str _ => true
  | _ => false

/-- typeforce `"?Number"`: the value is `undefined` or a number. -/
def isOptNumber : JSValue → Bool
  | .undef => true
  | .num _ => true
  | _ => false

/-- The options object accepted by the `WaasApi` constructor
(src/waas-api.ts, interface IWaaSOptions). Every field is a `JSValue` so that
missing and wrongly-typed fields can be represented. -/
structure WaasOptions where
  clientId : JSValue
  clientSecret : JSValue
  subscription : JSValue
  vaultUrl : JSValue
  ethereumNetwork : JSValue
  ethereumTxSpeed : JSValue
  bitcoinNetwork : JSValue
  bitcoinTxSpeed : JSValue
  bitcoinTxConfirmations : JSValue
  bitcoinMaxFeeRate : JSValue
deriving Repr, DecidableEq

/-- An error thrown synchronously by the `WaasApi` constructor: either an
`AuthenticationError` with its message, or a typeforce type-validation
error. -/
inductive ConstructError
  | authenticationError (message : String)
  | typeforceError
deriving Repr, DecidableEq

/-- The typeforce schema check performed by the constructor
(src/waas-api.ts lines 91-102): the three credentials must be strings and
every optional field must be `undefined` or of its declared type. -/
def optionsTypecheck (o : WaasOptions) : Bool :=
  isJSString o.clientId && isJSString o.clientSecret && isJSString o.subscription
    && isOptString o.vaultUrl && isOptString o.ethereumNetwork
    && isOptString o.ethereumTxSpeed && isOptString o.bitcoinNetwork
    && isOptString o.bitcoinTxSpeed && isOptString o.bitcoinTxConfirmations
    && isOptNumber o.bitcoinMaxFeeRate

/-- Shallow embedding of the validation prefix of the `WaasApi` constructor
(src/waas-api.ts lines 79-102). The three falsiness checks run first, in
source order, each throwing an `AuthenticationError` naming its variable;
then the typeforce schema check runs. Everything after it (header assembly
and `axios.create`) performs no network I/O, so any error here is raised
synchronously before any network activity. -/
def waasConstruct (o : WaasOptions) : Except ConstructError Unit :=
  if jsFalsy o.clientId then
    .error (.authenticationError "Missing variable 'clientId'")
  else if jsFalsy o.clientSecret then
    .error (.authenticationError "Missing variable 'clientSecret'")
  else if jsFalsy o.subscription then
    .error (.authenticationError "Missing variable 'subscription'")
  else if optionsTypecheck o then
    .ok ()
  else
    .error .typeforceError

/-- An Operation Status snapshot fetched from the server, following the
IAsyncRequestStatus interface in the interfaces source file: `process`
identifies the operation, `stage` is the lifecycle stage string, and `output`
is `null` while the operation is pending and a mapping of arbitrary result
fields once it is terminal (timestamps and auxiliary stage fields are not read
by the lifecycle manager and are omitted). Result mappings are embedded as
association lists of string pairs. -/
structure OperationStatus where
  process : String
  stage : String
  output : Option (List (String × String))
deriving Repr, DecidableEq

/-- Modelled from the spec: request.ts (the Async Job Handle) is not among the
provided source files. A status is terminal exactly when `output` is non-null,
per the spec's invariant "`output` is non-null if and only if `stage` denotes
a terminal state". -/
def OperationStatus.isTerminal (s : OperationStatus) : Bool := s.output.isSome

/-- The raw transport outcome of one status fetch: a parsed Operation Status,
or a transport failure which the response interceptor will classify. -/
inductive PollResult
  | ok (s : OperationStatus)
  | fail (e : AxiosErrorModel)
deriving Repr, DecidableEq

/-- The server as the polling loop observes it: the response to the n-th
status fetch for the handle. -/
abbrev Server := Nat → PollResult

/-- Modelled from the spec: request.ts's `get()` performs exactly one fetch of
Operation Status and returns it verbatim, caching nothing. The handle's state
is only the running fetch counter (how many fetches have been issued so far);
`requestGet` returns the fetched status together with the incremented
counter. -/
def requestGet (srv : Nat → OperationStatus) (count : Nat) : OperationStatus × Nat :=
  (srv count, count + 1)

/-- The outcome of a `wait(options)` call. `polls` is the number of status
fetches performed and `elapsed` the total wall-clock milliseconds spent
sleeping between polls (fetches themselves are instantaneous in the model).
`ok` returns the terminal status's output; `failed` propagates what the
interceptor threw on the failing poll; `timedOut` is the distinct
"operation timed out" condition. -/
inductive WaitOutcome
  | ok (output : List (String × String)) (polls : Nat) (elapsed : Nat)
  | failed (e : InterceptResult) (polls : Nat) (elapsed : Nat)
  | timedOut (polls : Nat) (elapsed : Nat)
deriving Repr, DecidableEq

/-- Modelled from the spec: request.ts's polling loop. One cycle: check the
deadline cooperatively (timed out once the elapsed time exceeds `timeoutMs`),
fetch the status, propagate a classified transport failure immediately, return
the output if the stage is terminal, otherwise sleep `intervalMs` (measured
from the completion of the poll) and repeat. `fuel` bounds the recursion; with
`intervalMs > 0` the fuel supplied by `wait` never runs out, since each cycle
adds `intervalMs ≥ 1` to `elapsed` and the deadline check fires once `elapsed`
exceeds `timeoutMs`. -/
def waitAux (srv : Server) (intervalMs timeoutMs : Nat) :
    Nat → Nat → Nat → WaitOutcome
  | 0, n, elapsed => .timedOut n elapsed
  | fuel + 1, n, elapsed =>
    if timeoutMs < elapsed then .timedOut n elapsed
    else
      match srv n with
      | .fail e => .failed (interceptError e) (n + 1) elapsed
      | .ok s =>
        match s.output with
        | some out => .ok out (n + 1) elapsed
        | none => waitAux srv intervalMs timeoutMs fuel (n + 1) (elapsed + intervalMs)

/-- Modelled from the spec: request.ts's `wait(options)` with poll interval
`intervalMs` and deadline `timeoutMs`, starting from the first fetch at
elapsed time 0. -/
def wait (srv : Server) (intervalMs timeoutMs : Nat) : WaitOutcome :=
  waitAux srv intervalMs timeoutMs (timeoutMs + 2) 0 0

/-- Unfolding lemma: the polling loop with zero fuel reports a timeout. -/
theorem waitAux_zero (srv : Server) (i T n elapsed : Nat) :
    waitAux srv i T 0 n elapsed = .timedOut n elapsed := rfl

/-- Unfolding lemma: one cycle of the polling loop. -/
theorem waitAux_succ (srv : Server) (i T fuel n elapsed : Nat) :
    waitAux srv i T (fuel + 1) n elapsed =
      if T < elapsed then .timedOut n elapsed
      else
        match srv n with
        | .fail e => .failed (interceptError e) (n + 1) elapsed
        | .ok s =>
          match s.output with
          | some out => .ok out (n + 1) elapsed
          | none => waitAux srv i T fuel (n + 1) (elapsed + i) := rfl

/-- Claim C1: for every failed exchange whose status is 401, 404, or 409, the
classifier produces respectively an AuthenticationError, NotFoundError, or
ConflictError whose message is the response body's `message` field unchanged,
or the empty string when that field is absent (`Option.getD ""`). -/
theorem c1_classifier_typed_kinds (data : ErrorBody) :
    interceptError ⟨some (401, data)⟩
      = .classified (.authenticationError (data.message.getD ""))
    ∧ interceptError ⟨some (404, data)⟩
      = .classified (.notFoundError (data.message.getD ""))
    ∧ interceptError ⟨some (409, data)⟩
      = .classified (.conflictError (data.message.getD "")) :=
  ⟨rfl, rfl, rfl⟩

/-- Witness for C1 at the test suite's concrete bodies. -/
theorem c1_classifier_typed_kinds_witness :
    interceptError ⟨some (401, ⟨some "AuthenticationError", none⟩)⟩
      = .classified (.authenticationError "AuthenticationError")
    ∧ interceptError ⟨some (404, ⟨none, none⟩)⟩ = .classified (.notFoundError "") :=
  ⟨(c1_classifier_typed_kinds ⟨some "AuthenticationError", none⟩).1,
   (c1_classifier_typed_kinds ⟨none, none⟩).2.1⟩

/-- Claim C2 counterexample: a transport failure that carries no response is
not turned into a GeneralError-class typed failure — the interceptor rethrows
the raw transport error unchanged (`throw e`, src/waas-api.ts line 163), so
the classification yields no typed kind. -/
theorem c2_no_response_counterexample :
    (interceptError ⟨none⟩).isTyped = false := rfl

/-- Claim C2 (amended): a transport failure that carries a response is always
classified into one of the four typed kinds, but a failure that carries no
response at all is rethrown as the raw transport error, which therefore
escapes the core unclassified. -/
theorem c2_amended_no_response_raw (e : AxiosErrorModel) :
    (e.response = none → interceptError e = .raw e)
    ∧ (∀ status data, e.response = some (status, data) →
        (interceptError e).isTyped = true) := by
  constructor
  · intro h
    simp [interceptError, h]
  · intro status data h
    simp only [interceptError, h]
    split_ifs <;> rfl

/-- Witness for the amended C2 at concrete inputs: no response rethrows raw;
a 500 response is classified. -/
theorem c2_amended_no_response_raw_witness :
    interceptError ⟨none⟩ = .raw ⟨none⟩
    ∧ (interceptError ⟨some (500, ⟨none, none⟩)⟩).isTyped = true :=
  ⟨(c2_amended_no_response_raw ⟨none⟩).1 rfl,
   (c2_amended_no_response_raw ⟨some (500, ⟨none, none⟩)⟩).2 500 ⟨none, none⟩ rfl⟩

/-- Claim C3: for every failed exchange whose status is not 401, 404, or 409,
the classifier produces a GeneralError built from the full body and the
numeric status; its message surfaces the body's `message` field, its status is
the response status, and it keeps the body's `activityId` when present. -/
theorem c3_classifier_general_error (status : Nat) (data : ErrorBody)
    (h401 : status ≠ 401) (h404 : status ≠ 404) (h409 : status ≠ 409) :
    interceptError ⟨some (status, data)⟩
      = .classified (.generalError (GeneralError.ofData data status))
    ∧ (GeneralError.ofData data status).status = status
    ∧ (GeneralError.ofData data status).message = data.message.getD ""
    ∧ (GeneralError.ofData data status).activityId = data.activityId := by
  refine ⟨?_, rfl, rfl, rfl⟩
  simp [interceptError, h401, h404, h409]

/-- Witness for C3 at the spec's scenario: HTTP 500 with body
`{message: "boom", activityId: "abc-1"}` yields a GeneralError with status
500, message "boom", activityId "abc-1". -/
theorem c3_classifier_general_error_witness :
    interceptError ⟨some (500, ⟨some "boom", some "abc-1"⟩)⟩
      = .classified (.generalError ⟨"boom", 500, some "abc-1"⟩) := by
  have h := c3_classifier_general_error 500 ⟨some "boom", some "abc-1"⟩
    (by decide) (by decide) (by decide)
  simpa [GeneralError.ofData, errorMessage] using h.1

/-- Claim C10: the response interceptor's success handler returns the
successful response unchanged — the error-classification layer is the
identity on the success path. -/
theorem c10_success_path_identity (r : AxiosResponse) :
    interceptResponse r = r := rfl

/-- Witness for C10 at the test suite's concrete response (status 200,
body "OK"). -/
theorem c10_success_path_identity_witness :
    interceptResponse ⟨200, "OK"⟩ = ⟨200, "OK"⟩ :=
  c10_success_path_identity ⟨200, "OK"⟩

/-- Claim C9: constructing the API client with a falsy (missing or empty)
clientId, clientSecret, or subscription throws an AuthenticationError
synchronously whose message names the missing variable, checked in source
order; with truthy credentials, a failing typeforce schema check (e.g. a
wrongly-typed optional option) also throws synchronously. -/
theorem c9_constructor_validation_order (o : WaasOptions) :
    (jsFalsy o.clientId = true →
      waasConstruct o = .error (.authenticationError "Missing variable 'clientId'"))
    ∧ (jsFalsy o.clientId = false → jsFalsy o.clientSecret = true →
      waasConstruct o = .error (.authenticationError "Missing variable 'clientSecret'"))
    ∧ (jsFalsy o.clientId = false → jsFalsy o.clientSecret = false →
      jsFalsy o.subscription = true →
      waasConstruct o = .error (.authenticationError "Missing variable 'subscription'"))
    ∧ (jsFalsy o.clientId = false → jsFalsy o.clientSecret = false →
      jsFalsy o.subscription = false → optionsTypecheck o = false →
      waasConstruct o = .error .typeforceError) := by
  refine ⟨fun h1 => ?_, fun h1 h2 => ?_, fun h1 h2 h3 => ?_, fun h1 h2 h3 h4 => ?_⟩ <;>
    simp [waasConstruct, h1]
  · simp [h2]
  · simp [h2, h3]
  · simp [h2, h3, h4]

/-- Witness for C9 at concrete inputs: an empty clientId throws the
AuthenticationError naming clientId; well-formed credentials with a boolean
vaultUrl throw the typeforce error. -/
theorem c9_constructor_validation_order_witness :
    waasConstruct ⟨.str "", .str "2", .str "3", .undef, .undef, .undef, .undef,
        .undef, .undef, .undef⟩
      = .error (.authenticationError "Missing variable 'clientId'")
    ∧ waasConstruct ⟨.str "1", .str "2", .str "3", .boolean true, .undef, .undef,
        .undef, .undef, .undef, .undef⟩
      = .error .typeforceError :=
  ⟨(c9_constructor_validation_order _).1 (by decide),
   (c9_constructor_validation_order _).2.2.2 (by decide) (by decide) (by decide)
     (by decide)⟩

/-- Against a server that never returns a terminal status, the polling loop
reports a timeout at an elapsed time strictly above the deadline and at most
one poll interval above it, provided enough fuel. -/
theorem waitAux_never_terminal (srv : Server) (i T : Nat)
    (hsrv : ∀ n, ∃ s, srv n = .ok s ∧ s.output = none) :
    ∀ fuel n elapsed, elapsed ≤ T + i → T < elapsed + fuel * i →
      ∃ p e, waitAux srv i T fuel n elapsed = .timedOut p e ∧ T < e ∧ e ≤ T + i := by
  intro fuel
  induction fuel with
  | zero =>
    intro n elapsed h1 h2
    exact ⟨n, elapsed, rfl, by simpa using h2, h1⟩
  | succ fuel ih =>
    intro n elapsed h1 h2
    by_cases hT : T < elapsed
    · exact ⟨n, elapsed, by rw [waitAux_succ, if_pos hT], hT, h1⟩
    · obtain ⟨s, hs, hout⟩ := hsrv n
      rw [waitAux_succ, if_neg hT]
      simp only [hs, hout]
      apply ih
      · omega
      · rw [Nat.succ_mul] at h2
        omega

/-- Claim C4: against a server whose statuses never reach a terminal stage,
`wait` with deadline `timeoutMs = T` and poll interval `intervalMs = i > 0`
stops polling and fails with the distinct timed-out condition (not a
transport or remote error) at an elapsed time `e` with `T < e ≤ T + i` —
approximately T, exceeding it by at most one poll interval. -/
theorem c4_wait_timeout_deadline (srv : Server) (i T : Nat) (hi : 0 < i)
    (hsrv : ∀ n, ∃ s, srv n = .ok s ∧ s.output = none) :
    ∃ p e, wait srv i T = .timedOut p e ∧ T < e ∧ e ≤ T + i := by
  apply waitAux_never_terminal srv i T hsrv (T + 2) 0 0 (Nat.zero_le _)
  have h2 : (T + 2) * 1 ≤ (T + 2) * i := Nat.mul_le_mul_left _ hi
  simp only [Nat.mul_one] at h2
  omega

/-- Witness for C4 at a concrete never-terminal server with interval 10 and
deadline 25. -/
theorem c4_wait_timeout_deadline_witness :
    ∃ p e, wait (fun _ => .ok ⟨"job-42", "pending", none⟩) 10 25 = .timedOut p e
      ∧ 25 < e ∧ e ≤ 35 :=
  c4_wait_timeout_deadline _ 10 25 (by decide)
    (fun _ => ⟨⟨"job-42", "pending", none⟩, rfl, rfl⟩)

/-- Claim C5: `wait` repeatedly invokes the status fetch until a fetched
status has a terminal stage and then returns that status's output. If the
very first poll is terminal, `wait` returns its output immediately after one
poll with zero elapsed sleep; in the two-poll scenario (first poll
non-terminal, second poll terminal with output `out`), `wait` returns `out`
after exactly two polls and one sleep interval. -/
theorem c5_wait_returns_terminal_output :
    (∀ (srv : Server) (i T : Nat) (s : OperationStatus) (out : List (String × String)),
      srv 0 = .ok s → s.output = some out → wait srv i T = .ok out 1 0)
    ∧ (∀ (srv : Server) (i T : Nat) (s0 s1 : OperationStatus)
        (out : List (String × String)),
      srv 0 = .ok s0 → s0.output = none → srv 1 = .ok s1 → s1.output = some out →
      i ≤ T → wait srv i T = .ok out 2 i) := by
  constructor
  · intro srv i T s out h0 hout
    show waitAux srv i T ((T + 1) + 1) 0 0 = .ok out 1 0
    rw [waitAux_succ, if_neg (Nat.not_lt.mpr (Nat.zero_le T))]
    simp [h0, hout]
  · intro srv i T s0 s1 out h0 hout0 h1 hout1 hiT
    show waitAux srv i T ((T + 1) + 1) 0 0 = .ok out 2 i
    rw [waitAux_succ, if_neg (Nat.not_lt.mpr (Nat.zero_le T))]
    simp only [h0, hout0]
    rw [show (0 : Nat) + i = i from Nat.zero_add i]
    show waitAux srv i T (T + 1) 1 i = .ok out 2 i
    rw [waitAux_succ, if_neg (Nat.not_lt.mpr hiT)]
    simp [h1, hout1]

/-- Witness for C5 at the spec's scenario: first poll pending, second poll
confirmed with output `{hash: "0xabc"}`, interval 10, deadline 6000 — `wait`
resolves to that output after exactly two polls. -/
theorem c5_wait_returns_terminal_output_witness :
    wait (fun n => if n = 0 then .ok ⟨"job-42", "pending", none⟩
          else .ok ⟨"job-42", "confirmed", some [("hash", "0xabc")]⟩) 10 6000
      = .ok [("hash", "0xabc")] 2 10 :=
  c5_wait_returns_terminal_output.2 _ 10 6000 ⟨"job-42", "pending", none⟩
    ⟨"job-42", "confirmed", some [("hash", "0xabc")]⟩ [("hash", "0xabc")]
    rfl rfl rfl rfl (by decide)

/-- If the first `k` polls are non-terminal successes and the `k`-th poll
fails in transport, the polling loop propagates the classified failure at
once, after `k + 1` polls and `k` sleep intervals, provided enough fuel. -/
theorem waitAux_failfast (srv : Server) (i T : Nat) (e : AxiosErrorModel) :
    ∀ k fuel n elapsed, k < fuel →
      (∀ m, m < k → ∃ s, srv (n + m) = .ok s ∧ s.output = none) →
      srv (n + k) = .fail e → elapsed + k * i ≤ T →
      waitAux srv i T fuel n elapsed
        = .failed (interceptError e) (n + k + 1) (elapsed + k * i) := by
  intro k
  induction k with
  | zero =>
    intro fuel n elapsed hf hpre hk hT
    match fuel, hf with
    | fuel + 1, _ =>
      rw [waitAux_succ, if_neg (by omega)]
      rw [show n + 0 = n from rfl] at hk
      simp [hk]
  | succ k ih =>
    intro fuel n elapsed hf hpre hk hT
    match fuel, hf with
    | fuel + 1, hf =>
      have hT' : elapsed + (k * i + i) ≤ T := by
        rw [Nat.succ_mul] at hT
        omega
      rw [waitAux_succ, if_neg (by omega)]
      obtain ⟨s, hs, hout⟩ := hpre 0 (Nat.succ_pos k)
      rw [show n + 0 = n from rfl] at hs
      simp only [hs, hout]
      have hpre2 : ∀ m, m < k → ∃ s, srv (n + 1 + m) = .ok s ∧ s.output = none := by
        intro m hm
        have h := hpre (m + 1) (by omega)
        rwa [show n + (m + 1) = n + 1 + m from by omega] at h
      have hk2 : srv (n + 1 + k) = .fail e := by
        rwa [show n + (k + 1) = n + 1 + k from by omega] at hk
      have hrec := ih fuel (n + 1) (elapsed + i) (by omega) hpre2 hk2 (by omega)
      rw [hrec]
      rw [show n + 1 + k + 1 = n + (k + 1) + 1 from by omega]
      rw [show elapsed + i + k * i = elapsed + (k + 1) * i from by
        rw [Nat.succ_mul]; omega]

/-- Claim C6: a transport/classifier failure on any poll propagates to the
caller immediately and terminates the wait with no automatic retry: if the
first `k` polls are non-terminal successes and the next poll fails in
transport (within the deadline), `wait` fails with exactly the classified
error after `k + 1` polls. -/
theorem c6_wait_propagates_poll_failure (srv : Server) (i T k : Nat)
    (e : AxiosErrorModel) (hi : 0 < i)
    (hpre : ∀ m, m < k → ∃ s, srv m = .ok s ∧ s.output = none)
    (hk : srv k = .fail e) (hT : k * i ≤ T) :
    wait srv i T = .failed (interceptError e) (k + 1) (k * i) := by
  have hki : k ≤ k * i := Nat.le_mul_of_pos_right _ hi
  have h := waitAux_failfast srv i T e k (T + 2) 0 0 (by omega)
    (by simpa using hpre) (by simpa using hk) (by omega)
  simpa using h

/-- Witness for C6 at the spec's scenario: the first poll receives HTTP 409
with body `{message: "ramirez"}` — `wait` rejects with a ConflictError whose
message is "ramirez", after one poll and no sleep. -/
theorem c6_wait_propagates_poll_failure_witness :
    wait (fun _ => .fail ⟨some (409, ⟨some "ramirez", none⟩)⟩) 10 6000
      = .failed (.classified (.conflictError "ramirez")) 1 0 := by
  have h := c6_wait_propagates_poll_failure
    (fun _ => .fail ⟨some (409, ⟨some "ramirez", none⟩)⟩) 10 6000 0
    ⟨some (409, ⟨some "ramirez", none⟩)⟩ (by decide)
    (fun m hm => absurd hm (Nat.not_lt_zero m)) rfl (by decide)
  simpa [interceptError, errorMessage] using h

/-- Claim C8: `get()` performs exactly one status fetch (the fetch counter
advances by exactly one) and returns the fetched status verbatim, caching
nothing; consequently, once the remote operation is terminal and its status
stable, every call to `get()` returns the same terminal output. -/
theorem c8_get_verbatim_idempotent :
    (∀ (srv : Nat → OperationStatus) (count : Nat),
      (requestGet srv count).1 = srv count ∧ (requestGet srv count).2 = count + 1)
    ∧ (∀ (srv : Nat → OperationStatus) (j k : Nat),
      (∀ m, srv m = srv 0) → (srv 0).isTerminal = true →
      (requestGet srv j).1.output = (srv 0).output
        ∧ (requestGet srv j).1.output = (requestGet srv k).1.output) := by
  refine ⟨fun srv count => ⟨rfl, rfl⟩, fun srv j k hstable _ => ⟨?_, ?_⟩⟩
  · simpa [requestGet] using congrArg OperationStatus.output (hstable j)
  · simp [requestGet, hstable j, hstable k]

/-- Witness for C8 at a concrete stable terminal server: two calls at
different fetch counters return the same output. -/
theorem c8_get_verbatim_idempotent_witness :
    (requestGet (fun _ => ⟨"job-42", "confirmed", some [("hash", "0xabc")]⟩) 5).1.output
      = (requestGet (fun _ => ⟨"job-42", "confirmed", some [("hash", "0xabc")]⟩) 7).1.output :=
  (c8_get_verbatim_idempotent.2
    (fun _ => ⟨"job-42", "confirmed", some [("hash", "0xabc")]⟩) 5 7
    (fun _ => rfl) rfl).2

end WaasSdk
